import Mathlib

/-!
Verification of the LLM Guardian middleware core against its specification.

The development shallowly embeds the components of `src/llm_guardian` that the
claims concern:

* `CircuitBreaker` (`safety/circuit_breaker.py`) — three-state breaker with
  integer timestamps (the Python code uses `datetime.utcnow()`; we model time
  as a monotone natural-number clock passed explicitly, so
  `now - last_failure_time >= recovery_timeout` becomes
  `last_failure_time + recovery_timeout <= now`).
* `TokenBucket` and `RateLimiter` (`safety/rate_limiter.py`) — float
  arithmetic is modelled with rationals; wall-clock timestamps are rational
  seconds, with the UTC calendar date of a timestamp taken as
  `Int.floor (t / 86400)`.
* `RetryManager` (`recovery/retry_manager.py`) — the provider call is
  scripted by a function from the attempt index to an outcome
  (success / retryable error / non-retryable error).
* `QualityMonitor.assess_quality` (`monitoring/quality_monitor.py`) — the
  regex detectors are parameterised by their match counts; all downstream
  arithmetic (scores, categorisation, validation verdicts) is embedded
  exactly.
* `LLMGuardian.execute_request` (`core/guardian.py`) — the orchestrator
  pipeline, threading the audit-event log, provider-call counters, the
  circuit-breaker state and the cost-recording counter through the exact
  control flow of the Python code (including its `try`/`except` structure).
-/

namespace LLMGuardian

/-! ## Circuit breaker (`safety/circuit_breaker.py`) -/

/-- The three breaker states (`CircuitState` in the source). -/
inductive CircuitState
  | closed
  | opened
  | halfOpen
  deriving DecidableEq, Repr

/-- State of a `CircuitBreaker` instance: configuration together with the
mutable fields mutated under the breaker's lock.  `state_history` records the
`(state, timestamp)` timeline exactly as `self.state_history` does. -/
structure CircuitBreaker where
  failure_threshold : Nat
  recovery_timeout : Nat
  success_threshold : Nat
  state : CircuitState
  failure_count : Nat
  success_count : Nat
  last_failure_time : Option Nat
  last_state_change : Nat
  total_calls : Nat
  total_failures : Nat
  total_successes : Nat
  state_history : List (CircuitState × Nat)
  deriving DecidableEq, Repr

namespace CircuitBreaker

/-- `CircuitBreaker.__init__`: fresh breaker, CLOSED, created at time `now`. -/
def create (failure_threshold recovery_timeout success_threshold now : Nat) :
    CircuitBreaker :=
  { failure_threshold := failure_threshold
    recovery_timeout := recovery_timeout
    success_threshold := success_threshold
    state := .closed
    failure_count := 0
    success_count := 0
    last_failure_time := none
    last_state_change := now
    total_calls := 0
    total_failures := 0
    total_successes := 0
    state_history := [(.closed, now)] }

/-- `CircuitBreaker._should_attempt_reset`: true when no failure was recorded
or the recovery timeout has elapsed since the last failure. -/
def shouldAttemptReset (b : CircuitBreaker) (now : Nat) : Bool :=
  match b.last_failure_time with
  | none => true
  | some t => t + b.recovery_timeout ≤ now

/-- `CircuitBreaker._transition_to`: change state, stamp the change, append to
the history, and reset the counters the code resets on entry to the new
state. -/
def transitionTo (b : CircuitBreaker) (s : CircuitState) (now : Nat) :
    CircuitBreaker :=
  if b.state = s then b
  else
    { b with
      state := s
      last_state_change := now
      state_history := b.state_history ++ [(s, now)]
      failure_count := if s = .closed then 0 else b.failure_count
      success_count :=
        if s = .closed ∨ s = .halfOpen then 0 else b.success_count }

/-- `CircuitBreaker._on_success`. -/
def onSuccess (b : CircuitBreaker) (now : Nat) : CircuitBreaker :=
  let b := { b with failure_count := 0, total_successes := b.total_successes + 1 }
  if b.state = .halfOpen then
    let b := { b with success_count := b.success_count + 1 }
    if b.success_threshold ≤ b.success_count then
      { b.transitionTo .closed now with success_count := 0 }
    else b
  else b

/-- `CircuitBreaker._on_failure`. -/
def onFailure (b : CircuitBreaker) (now : Nat) : CircuitBreaker :=
  let b :=
    { b with
      failure_count := b.failure_count + 1
      total_failures := b.total_failures + 1
      last_failure_time := some now }
  match b.state with
  | .halfOpen => { b.transitionTo .opened now with success_count := 0 }
  | .closed =>
      if b.failure_threshold ≤ b.failure_count then b.transitionTo .opened now
      else b
  | .opened => b

/-- Result of `CircuitBreaker.call`: either the call was rejected with
`CircuitBreakerOpenError` (wrapped function never invoked), or the wrapped
function was executed and either returned or raised. -/
inductive CallResult
  | rejected
  | completed (success : Bool)
  deriving DecidableEq, Repr

/-- `CircuitBreaker.call`: increment `total_calls`; while OPEN, either reject
(if the recovery timeout has not elapsed) or transition to HALF_OPEN and
execute; the wrapped call's outcome is supplied as `callSucceeds`.  The Python
code samples `utcnow()` separately for the reset check and the failure record;
the model uses the single clock value `now` for both. -/
def call (b : CircuitBreaker) (now : Nat) (callSucceeds : Bool) :
    CircuitBreaker × CallResult :=
  let b := { b with total_calls := b.total_calls + 1 }
  if b.state = .opened ∧ ¬ b.shouldAttemptReset now then
    (b, .rejected)
  else
    let b := if b.state = .opened then b.transitionTo .halfOpen now else b
    if callSucceeds then (b.onSuccess now, .completed true)
    else (b.onFailure now, .completed false)

/-- Iterate `call` with a succeeding wrapped function `k` times. -/
def callSuccN (b : CircuitBreaker) (now : Nat) : Nat → CircuitBreaker
  | 0 => b
  | k + 1 => callSuccN (b.call now true).1 now k

end CircuitBreaker

/-! ## Token bucket and rate limiter (`safety/rate_limiter.py`) -/

/-- `TokenBucket` state: Python floats become rationals, `last_refill` is a
timestamp in rational seconds. -/
structure TokenBucket where
  capacity : ℚ
  refill_rate : ℚ
  tokens : ℚ
  last_refill : ℚ
  deriving DecidableEq, Repr

namespace TokenBucket

/-- `TokenBucket.__init__`: `tokens = float(capacity)`, `last_refill = utcnow()`. -/
def create (capacity : Nat) (refill_rate : ℚ) (now : ℚ) : TokenBucket :=
  { capacity := capacity
    refill_rate := refill_rate
    tokens := capacity
    last_refill := now }

/-- `TokenBucket._refill`:
`tokens = min(capacity, tokens + elapsed * refill_rate); last_refill = now`. -/
def refill (b : TokenBucket) (now : ℚ) : TokenBucket :=
  { b with
    tokens := min b.capacity (b.tokens + (now - b.last_refill) * b.refill_rate)
    last_refill := now }

/-- `TokenBucket.acquire`: refill, then decrement and succeed iff enough
tokens are available. -/
def acquire (b : TokenBucket) (now : ℚ) (n : Nat) : TokenBucket × Bool :=
  let b := b.refill now
  if (n : ℚ) ≤ b.tokens then ({ b with tokens := b.tokens - n }, true)
  else (b, false)

/-- Run a finite sequence of `acquire` calls, each tagged with its timestamp
and requested token count; return the final bucket and the total number of
tokens consumed by the successful calls. -/
def runAcquires (b : TokenBucket) : List (ℚ × Nat) → TokenBucket × ℚ
  | [] => (b, 0)
  | (now, n) :: ops =>
      let step := b.acquire now n
      let rest := runAcquires step.1 ops
      (rest.1, (if step.2 then (n : ℚ) else 0) + rest.2)

/-- The timestamps of a call sequence are nondecreasing, starting no earlier
than `t`. -/
def timesChain (t : ℚ) : List (ℚ × Nat) → Bool
  | [] => true
  | (now, _) :: ops => decide (t ≤ now) && timesChain now ops

/-- Every timestamp of the call sequence is at most `T`. -/
def timesLE (T : ℚ) (ops : List (ℚ × Nat)) : Bool :=
  ops.all fun p => decide (p.1 ≤ T)

end TokenBucket

/-- UTC calendar date of a timestamp in seconds: `datetime.date()` comparisons
on UTC datetimes are comparisons of the day number. -/
def dayOf (t : ℚ) : ℤ := ⌊t / 86400⌋

/-- Update a string-keyed association list (Python dict assignment
`d[k] = v`). -/
def setA {α : Type} (l : List (String × α)) (k : String) (v : α) :
    List (String × α) :=
  match l with
  | [] => [(k, v)]
  | (k', v') :: t => if k' = k then (k, v) :: t else (k', v') :: setA t k v

/-- `d.get(k, 0.0)` on a USD ledger. -/
def qlookup (l : List (String × ℚ)) (k : String) : ℚ :=
  (l.lookup k).getD 0

/-- The `rate_limiting` configuration section (`RateLimitConfig`). -/
structure RateLimitConfig where
  global_max_requests_per_minute : Nat
  user_max_requests_per_minute : Nat
  user_daily_quota_usd : Option ℚ
  session_budget_usd : Option ℚ

/-- Mutable state of `RateLimiter`: the global bucket, the lazily created
per-user buckets, and the USD ledgers (`user_quotas`, `user_quota_reset`,
`session_costs`). -/
structure RateLimiterState where
  globalLimiter : TokenBucket
  userLimiters : List (String × TokenBucket)
  user_quotas : List (String × ℚ)
  user_quota_reset : List (String × ℚ)
  session_costs : List (String × ℚ)

namespace RateLimiterState

/-- `RateLimiter._reset_user_quota_if_needed`: zero the user's daily ledger
when no reset is recorded or the UTC date has advanced. -/
def resetUserQuotaIfNeeded (st : RateLimiterState) (user : String) (now : ℚ) :
    RateLimiterState :=
  match st.user_quota_reset.lookup user with
  | none =>
      { st with
        user_quotas := setA st.user_quotas user 0
        user_quota_reset := setA st.user_quota_reset user now }
  | some last =>
      if dayOf last < dayOf now then
        { st with
          user_quotas := setA st.user_quotas user 0
          user_quota_reset := setA st.user_quota_reset user now }
      else st

/-- The admission error kinds raised by `check_limits`. -/
inductive AdmissionError
  | rateLimitGlobal
  | rateLimitUser
  | quotaUser
  | budgetSession
  deriving DecidableEq, Repr

/-- Step 3 of `RateLimiter.check_limits` (`_check_user_quota`, guarded on a
user id and a configured daily quota): reset the ledger on date rollover,
then fail iff the current usage is at least the quota. -/
def checkUserQuotaStep (cfg : RateLimitConfig) (st : RateLimiterState)
    (userId : Option String) (now : ℚ) :
    RateLimiterState × Option AdmissionError :=
  match userId, cfg.user_daily_quota_usd with
  | some u, some quota =>
      if quota ≤ qlookup (st.resetUserQuotaIfNeeded u now).user_quotas u then
        (st.resetUserQuotaIfNeeded u now, some .quotaUser)
      else (st.resetUserQuotaIfNeeded u now, none)
  | _, _ => (st, none)

/-- Step 4 of `RateLimiter.check_limits` (`_check_session_budget`, guarded on
a session id and a configured budget), applied after step 3. -/
def checkSessionBudgetStep (cfg : RateLimitConfig)
    (r : RateLimiterState × Option AdmissionError) (sessionId : Option String) :
    RateLimiterState × Option AdmissionError :=
  match r with
  | (st, some e) => (st, some e)
  | (st, none) =>
      match sessionId, cfg.session_budget_usd with
      | some s, some budget =>
          if budget ≤ qlookup st.session_costs s then (st, some .budgetSession)
          else (st, none)
      | _, _ => (st, none)

/-- Steps 3 and 4 of `RateLimiter.check_limits`. -/
def checkQuotaSteps (cfg : RateLimitConfig) (st : RateLimiterState)
    (userId sessionId : Option String) (now : ℚ) :
    RateLimiterState × Option AdmissionError :=
  checkSessionBudgetStep cfg (checkUserQuotaStep cfg st userId now) sessionId

/-- The state after the global bucket's `acquire` in `check_limits`. -/
def afterGlobal (st : RateLimiterState) (now : ℚ) : RateLimiterState :=
  { st with globalLimiter := (st.globalLimiter.acquire now 1).1 }

/-- The per-user bucket consulted by `check_limits` (looked up, or created on
demand full at the current time). -/
def userBucket (cfg : RateLimitConfig) (st : RateLimiterState) (u : String)
    (now : ℚ) : TokenBucket :=
  match st.userLimiters.lookup u with
  | some b => b
  | none =>
      TokenBucket.create cfg.user_max_requests_per_minute
        ((cfg.user_max_requests_per_minute : ℚ) / 60) now

/-- The state after the per-user bucket's `acquire` in `check_limits`. -/
def afterUser (cfg : RateLimitConfig) (st : RateLimiterState) (u : String)
    (now : ℚ) : RateLimiterState :=
  { st with
    userLimiters := setA st.userLimiters u ((userBucket cfg st u now).acquire now 1).1 }

/-- `RateLimiter.check_limits`: global bucket, then per-user bucket (created
on demand with a full bucket), then daily quota, then session budget; the
first failing check aborts with its error kind. -/
def checkLimits (cfg : RateLimitConfig) (st : RateLimiterState)
    (userId sessionId : Option String) (now : ℚ) :
    RateLimiterState × Option AdmissionError :=
  if !(st.globalLimiter.acquire now 1).2 then
    (afterGlobal st now, some .rateLimitGlobal)
  else
    match userId with
    | some u =>
        if !((userBucket cfg (afterGlobal st now) u now).acquire now 1).2 then
          (afterUser cfg (afterGlobal st now) u now, some .rateLimitUser)
        else
          checkQuotaSteps cfg (afterUser cfg (afterGlobal st now) u now)
            userId sessionId now
    | none => checkQuotaSteps cfg (afterGlobal st now) userId sessionId now

/-- `RateLimiter.record_cost`: reset the user's ledger on date rollover, then
add the cost to the user and session ledgers. -/
def recordCost (st : RateLimiterState) (userId sessionId : Option String)
    (now : ℚ) (cost : ℚ) : RateLimiterState :=
  let st :=
    match userId with
    | some u =>
        let st := st.resetUserQuotaIfNeeded u now
        { st with user_quotas := setA st.user_quotas u (qlookup st.user_quotas u + cost) }
    | none => st
  match sessionId with
  | some s =>
      { st with session_costs := setA st.session_costs s (qlookup st.session_costs s + cost) }
  | none => st

end RateLimiterState

/-! ## Retry manager (`recovery/retry_manager.py`) -/

/-- Outcome of a single provider `generate` call: it returns, raises a
retryable error (`ConnectionError` / `TimeoutError` / provider timeout /
provider rate limit), or raises any other (non-retryable) exception. -/
inductive AttemptOutcome
  | success
  | retryable
  | fatal
  deriving DecidableEq, Repr

/-- Result of `RetryManager.execute_with_retry`: the wrapped call returned,
`RetryExhaustedError` was raised after the last retryable failure, or a
non-retryable exception propagated immediately. -/
inductive RetryResult
  | ok
  | exhausted
  | fatalErr
  deriving DecidableEq, Repr

/-- The retry loop body from attempt index `i` with `n` loop iterations left:
returns the result together with the number of provider calls made. -/
def retryAux (behavior : Nat → AttemptOutcome) (i : Nat) : Nat → RetryResult × Nat
  | 0 => (.exhausted, 0)
  | n + 1 =>
      match behavior i with
      | .success => (.ok, 1)
      | .fatal => (.fatalErr, 1)
      | .retryable =>
          let rest := retryAux behavior (i + 1) n
          (rest.1, rest.2 + 1)

/-- `RetryManager.execute_with_retry`: `for attempt in range(max_attempts)`,
calling the scripted provider behaviour once per iteration. -/
def retryRun (max_attempts : Nat) (behavior : Nat → AttemptOutcome) :
    RetryResult × Nat :=
  retryAux behavior 0 max_attempts

/-! ## Quality monitor (`monitoring/quality_monitor.py`)

The regex detectors are parameterised by their match counts (the number of
hallucination patterns matching the response text, and the per-category
safety match counts); the off-task keyword-overlap detector is parameterised
by its boolean outcome.  Everything downstream of the pattern matching is
embedded exactly. -/

/-- `HallucinationDetector._check_patterns`: each match adds 0.3, capped at 1. -/
def patternScore (nMatches : Nat) : ℚ := min ((nMatches : ℚ) * 0.3) 1

/-- `HallucinationDetector._check_length` on the word count of the response. -/
def lengthScore (wordCount : Nat) : ℚ :=
  if wordCount < 5 then 0.5 else if wordCount < 10 then 0.2 else 0

/-- `HallucinationDetector.detect`: `min(0.7*pattern + 0.3*length, 1.0)`. -/
def hallucinationDetect (nMatches wordCount : Nat) : ℚ :=
  min (0.7 * patternScore nMatches + 0.3 * lengthScore wordCount) 1

/-- `ContentSafetyChecker._check_category`: each match adds 0.4, capped at 1. -/
def categoryScore (nMatches : Nat) : ℚ := min ((nMatches : ℚ) * 0.4) 1

/-- Per-category regex match counts for `ContentSafetyChecker`. -/
structure SafetyMatches where
  violence : Nat
  hate_speech : Nat
  self_harm : Nat
  sexual_content : Nat
  illegal_activity : Nat

/-- The categories in the iteration order of `self.harmful_categories`. -/
def SafetyMatches.categories (m : SafetyMatches) : List (String × Nat) :=
  [("violence", m.violence), ("hate_speech", m.hate_speech),
   ("self_harm", m.self_harm), ("sexual_content", m.sexual_content),
   ("illegal_activity", m.illegal_activity)]

/-- `ContentSafetyChecker.check_safety`: collect the violating categories
(score > 0.5) and the running maximum of their scores. -/
def checkSafety (m : SafetyMatches) : List String × ℚ :=
  m.categories.foldl
    (fun acc c =>
      let s := categoryScore c.2
      if (0.5 : ℚ) < s then (acc.1 ++ [c.1], max acc.2 s) else acc)
    ([], 0)

/-- `QualityMonitor._calculate_quality_score`. -/
def calculateQualityScore (hallucination_score safety_risk : ℚ)
    (is_off_task : Bool) (response_length : Nat) : ℚ :=
  let base := 1 - hallucination_score * 0.4 - safety_risk * 0.5
  let base := if is_off_task then base * 0.5 else base
  let base := if response_length < 50 then base * 0.8 else base
  max 0 base

/-- `ResponseQuality` levels (`core/models.py`). -/
inductive ResponseQuality
  | EXCELLENT
  | GOOD
  | ACCEPTABLE
  | POOR
  | UNSAFE
  deriving DecidableEq, Repr

/-- `QualityMonitor._categorize_quality`. -/
def categorizeQuality (quality_score : ℚ) : ResponseQuality :=
  if (0.9 : ℚ) ≤ quality_score then .EXCELLENT
  else if (0.75 : ℚ) ≤ quality_score then .GOOD
  else if (0.6 : ℚ) ≤ quality_score then .ACCEPTABLE
  else if (0.3 : ℚ) ≤ quality_score then .POOR
  else .UNSAFE

/-- `QualityMonitor._should_pass_validation`. -/
def shouldPassValidation (quality_score : ℚ) (safety_violations : List String)
    (is_hallucination : Bool) : Bool :=
  if safety_violations ≠ [] then false
  else if is_hallucination then false
  else if quality_score < (0.5 : ℚ) then false
  else true

/-- `QualityMonitor._recommend_action`. -/
def recommendAction (quality_score : ℚ) (pass_validation : Bool)
    (safety_violations : List String) : String :=
  if safety_violations ≠ [] then "reject"
  else if !pass_validation then
    if quality_score < (0.3 : ℚ) then "fallback" else "review"
  else if (0.75 : ℚ) ≤ quality_score then "accept"
  else "review"

/-- The fields of the `LLMResponse` that `assess_quality` mutates in place. -/
structure ResponseAnnotations where
  quality_score : ℚ
  quality_level : ResponseQuality
  is_hallucination : Bool
  contains_harmful_content : Bool
  is_off_task : Bool
  deriving DecidableEq, Repr

/-- The `QualityAssessment` record fields the claims mention. -/
structure QualityAssessment where
  hallucination_probability : ℚ
  safety_violations : List String
  coherence_score : ℚ
  relevance_score : ℚ
  pass_validation : Bool
  recommended_action : String
  deriving DecidableEq, Repr

/-- Observable outcome of one `QualityMonitor.assess_quality` call: the
response annotations, the assessment record, whether the score was appended
to `quality_history`, and whether `QualityCheckFailedError` was raised. -/
structure AssessOutcome where
  response : ResponseAnnotations
  assessment : QualityAssessment
  historyAppended : Bool
  raised : Bool
  deriving DecidableEq, Repr

/-- `QualityMonitor.assess_quality`, in the mutation order of the source:
annotate the response (steps 1–4), append to the history (step 5), compute
the verdict (step 6), and finally raise `QualityCheckFailedError` iff the
response fails validation with a score below 0.3 (step 8).  All mutations
performed before the raise are visible in the outcome whether or not the
error is raised. -/
def assessQuality (hallMatches wordCount : Nat) (sm : SafetyMatches)
    (offTask : Bool) (responseLen : Nat) : AssessOutcome :=
  let hallucination_score := hallucinationDetect hallMatches wordCount
  let is_hallucination := decide ((0.7 : ℚ) < hallucination_score)
  let safety := checkSafety sm
  let contains_harmful_content := decide (safety.1 ≠ [])
  let quality_score :=
    calculateQualityScore hallucination_score safety.2 offTask responseLen
  let pass_validation :=
    shouldPassValidation quality_score safety.1 is_hallucination
  { response :=
      { quality_score := quality_score
        quality_level := categorizeQuality quality_score
        is_hallucination := is_hallucination
        contains_harmful_content := contains_harmful_content
        is_off_task := offTask }
    assessment :=
      { hallucination_probability := hallucination_score
        safety_violations := safety.1
        coherence_score := 1 - hallucination_score
        relevance_score := if offTask then 0 else 1
        pass_validation := pass_validation
        recommended_action := recommendAction quality_score pass_validation safety.1 }
    historyAppended := true
    raised := !pass_validation && decide (quality_score < (0.3 : ℚ)) }

/-! ## Orchestrator (`core/guardian.py`, `LLMGuardian.execute_request`)

The pipeline is embedded with its collaborators scripted: the input
validator's and rate limiter's verdicts, the provider behaviour for the
primary call and for each of the (up to two) fallback invocations, and the
quality / performance / output-validation outcomes are inputs; the audit
events, provider-call counts, fallback invocations, `record_cost` calls and
circuit-breaker state are threaded through the exact `try`/`except`
control flow of `execute_request`. -/

/-- Audit-log event types (`AuditLogger._log_event`). -/
inductive AuditEvent
  | request
  | response
  | error
  deriving DecidableEq, Repr

/-- Number of occurrences of an event type in an audit log. -/
def countEvents (e : AuditEvent) : List AuditEvent → Nat
  | [] => 0
  | x :: xs => (if x = e then 1 else 0) + countEvents e xs

/-- A scripted run of `execute_request`: feature flags, collaborator
verdicts, provider behaviours and the breaker state at entry. -/
structure GuardianEnv where
  enableSafety : Bool
  enableMonitoring : Bool
  fallbackConfigured : Bool
  providerDiffersFromFallback : Bool
  inputValid : Bool
  admissionOk : Bool
  maxAttempts : Nat
  primaryBeh : Nat → AttemptOutcome
  fallback1Beh : Nat → AttemptOutcome
  fallback2Beh : Nat → AttemptOutcome
  breaker : CircuitBreaker
  breakerNow : Nat
  qualityRaises : Bool
  perfRaises : Bool
  outputValid : Bool
  outputCritical : Bool

/-- Observable outcome of one `execute_request` invocation. -/
structure GuardianResult where
  events : List AuditEvent
  primaryCalls : Nat
  fallbackCalls : Nat
  fallbackInvocations : Nat
  recordCostCalls : Nat
  qualityCompleted : Bool
  raised : Bool
  breakerFinal : CircuitBreaker
  deriving Repr

/-- Outcome of step 5 (circuit breaker + retry, with the provider-failure
fallback of lines 147–160): either the pipeline continues with a response,
or the request aborts.  Each case carries the audit events logged during the
step and the call counters. -/
inductive Step5Out
  | proceed (events : List AuditEvent) (primaryCalls fallbackCalls fallbackInvocations : Nat)
  | abort (events : List AuditEvent) (primaryCalls fallbackCalls fallbackInvocations : Nat)

/-- The exception handler of lines 151–160: the step-5 error has been logged
(line 152); when a distinct fallback provider is configured,
`_handle_failure_with_fallback` retries against the fallback — its failure
logs a second error and re-raises the original (which the boundary handler
logs again; that extra boundary event is added by `executeRequest`).
`p` is the number of primary provider calls already made. -/
def step5Fallback (env : GuardianEnv) (p : Nat) : Step5Out :=
  if env.fallbackConfigured && env.providerDiffersFromFallback then
    if (retryRun env.maxAttempts env.fallback1Beh).1 = RetryResult.ok then
      .proceed [.error] p (retryRun env.maxAttempts env.fallback1Beh).2 1
    else
      .abort [.error, .error] p (retryRun env.maxAttempts env.fallback1Beh).2 1
  else
    .abort [.error] p 0 0

/-- Step 5 of `execute_request`: run the primary provider under the circuit
breaker with retry; a rejected call makes no provider call, a completed
failure has consumed the primary retry budget; any exception goes to the
handler (`step5Fallback`). -/
def step5Run (env : GuardianEnv) : Step5Out × CircuitBreaker :=
  match env.breaker.call env.breakerNow
      (decide ((retryRun env.maxAttempts env.primaryBeh).1 = RetryResult.ok)) with
  | (b', .completed true) =>
      (.proceed [] (retryRun env.maxAttempts env.primaryBeh).2 0 0, b')
  | (b', .completed false) =>
      (step5Fallback env (retryRun env.maxAttempts env.primaryBeh).2, b')
  | (b', .rejected) => (step5Fallback env 0, b')

/-- Steps 6–10 of `execute_request`, entered with the events and counters
accumulated so far: quality monitoring (may raise), performance monitoring
(may raise, before `record_cost`), `record_cost`, output validation with the
critical-severity fallback of lines 186–196, the response audit event, and
the boundary error handler of lines 211–214. -/
def afterStep5 (env : GuardianEnv) (ev : List AuditEvent)
    (p f i : Nat) (bf : CircuitBreaker) : GuardianResult :=
  if env.enableMonitoring && env.qualityRaises then
    { events := [.request] ++ ev ++ [.error], primaryCalls := p,
      fallbackCalls := f, fallbackInvocations := i, recordCostCalls := 0,
      qualityCompleted := false, raised := true, breakerFinal := bf }
  else if env.enableMonitoring && env.perfRaises then
    { events := [.request] ++ ev ++ [.error], primaryCalls := p,
      fallbackCalls := f, fallbackInvocations := i, recordCostCalls := 0,
      qualityCompleted := true, raised := true, breakerFinal := bf }
  else
    if env.enableSafety && !env.outputValid then
      if env.outputCritical then
        if env.fallbackConfigured then
          let fb := retryRun env.maxAttempts env.fallback2Beh
          if fb.1 = RetryResult.ok then
            { events := [.request] ++ ev ++ [.error, .response],
              primaryCalls := p, fallbackCalls := f + fb.2,
              fallbackInvocations := i + 1,
              recordCostCalls := if env.enableMonitoring then 1 else 0,
              qualityCompleted := true, raised := false, breakerFinal := bf }
          else
            { events := [.request] ++ ev ++ [.error, .error, .error],
              primaryCalls := p, fallbackCalls := f + fb.2,
              fallbackInvocations := i + 1,
              recordCostCalls := if env.enableMonitoring then 1 else 0,
              qualityCompleted := true, raised := true, breakerFinal := bf }
        else
          { events := [.request] ++ ev ++ [.error, .error],
            primaryCalls := p, fallbackCalls := f, fallbackInvocations := i,
            recordCostCalls := if env.enableMonitoring then 1 else 0,
            qualityCompleted := true, raised := true, breakerFinal := bf }
      else
        { events := [.request] ++ ev ++ [.error, .response],
          primaryCalls := p, fallbackCalls := f, fallbackInvocations := i,
          recordCostCalls := if env.enableMonitoring then 1 else 0,
          qualityCompleted := true, raised := false, breakerFinal := bf }
    else
      { events := [.request] ++ ev ++ [.response],
        primaryCalls := p, fallbackCalls := f, fallbackInvocations := i,
        recordCostCalls := if env.enableMonitoring then 1 else 0,
        qualityCompleted := true, raised := false, breakerFinal := bf }

/-- `LLMGuardian.execute_request`: audit the request, then input validation,
admission, step 5 with fallback, and steps 6–10; every exception escaping the
`try` block is logged by the boundary handler before re-raising. -/
def executeRequest (env : GuardianEnv) : GuardianResult :=
  if env.enableSafety && !env.inputValid then
    { events := [.request, .error], primaryCalls := 0, fallbackCalls := 0,
      fallbackInvocations := 0, recordCostCalls := 0,
      qualityCompleted := false, raised := true, breakerFinal := env.breaker }
  else if !env.admissionOk then
    { events := [.request, .error], primaryCalls := 0, fallbackCalls := 0,
      fallbackInvocations := 0, recordCostCalls := 0,
      qualityCompleted := false, raised := true, breakerFinal := env.breaker }
  else
    match step5Run env with
    | (.abort ev p f i, bf) =>
        { events := [.request] ++ ev ++ [.error], primaryCalls := p,
          fallbackCalls := f, fallbackInvocations := i, recordCostCalls := 0,
          qualityCompleted := false, raised := true, breakerFinal := bf }
    | (.proceed ev p f i, bf) => afterStep5 env ev p f i bf

/-! ## Concrete scenarios

Fully concrete inputs used to evaluate the models on specific runs. -/

/-- A fresh breaker with the default thresholds (5 failures, 60 s recovery,
2 successes), created at time 0. -/
def freshBreaker : CircuitBreaker := CircuitBreaker.create 5 60 2 0

/-- A baseline scripted run: safety on, monitoring off, no fallback
configured, valid input, admission granted, one retry attempt, a succeeding
provider, a fresh breaker, and clean quality/output verdicts. -/
def envBase : GuardianEnv :=
  { enableSafety := true
    enableMonitoring := false
    fallbackConfigured := false
    providerDiffersFromFallback := false
    inputValid := true
    admissionOk := true
    maxAttempts := 1
    primaryBeh := fun _ => .success
    fallback1Beh := fun _ => .success
    fallback2Beh := fun _ => .success
    breaker := freshBreaker
    breakerNow := 0
    qualityRaises := false
    perfRaises := false
    outputValid := true
    outputCritical := false }

/-- Scenario: the provider raises a non-retryable error and no fallback is
configured. -/
def envPrimaryFatal : GuardianEnv := { envBase with primaryBeh := fun _ => .fatal }

/-- Scenario: the provider raises a non-retryable error, a distinct fallback
provider is configured and succeeds, and output validation then fails with
critical severity, triggering a second fallback. -/
def envDoubleFallback : GuardianEnv :=
  { envBase with
    fallbackConfigured := true
    providerDiffersFromFallback := true
    primaryBeh := fun _ => .fatal
    outputValid := false
    outputCritical := true }

/-- Scenario: the breaker is OPEN (failure at time 100, probed at time 110,
before the 60-second recovery timeout) and a distinct fallback provider is
configured and succeeds. -/
def envOpenBreakerFallback : GuardianEnv :=
  { envBase with
    fallbackConfigured := true
    providerDiffersFromFallback := true
    breaker :=
      { freshBreaker with state := .opened, last_failure_time := some 100 }
    breakerNow := 110 }

/-- The open-breaker fallback scenario with a failing fallback provider. -/
def envOpenBreakerFallbackFail : GuardianEnv :=
  { envOpenBreakerFallback with fallback1Beh := fun _ => .fatal }

/-- Rate-limiter configuration for the rollover scenario: a $10 daily user
quota, no session budget, generous buckets. -/
def cfgRollover : RateLimitConfig :=
  { global_max_requests_per_minute := 1
    user_max_requests_per_minute := 1
    user_daily_quota_usd := some 10
    session_budget_usd := none }

/-- Rate-limiter state on day 1 (time 86400 s): user `u` accumulated $5 on
day 0 (its last ledger reset was at time 0), full buckets refreshed at the
current instant. -/
def stRollover : RateLimiterState :=
  { globalLimiter := { capacity := 1, refill_rate := 0, tokens := 1, last_refill := 86400 }
    userLimiters := [("u", { capacity := 1, refill_rate := 0, tokens := 1, last_refill := 86400 })]
    user_quotas := [("u", 5)]
    user_quota_reset := [("u", 0)]
    session_costs := [] }

/-! ## Circuit-breaker lemmas -/

namespace CircuitBreaker

theorem call_halfOpen_success_stay (b : CircuitBreaker) (now : Nat)
    (h : b.state = .halfOpen) (hlt : b.success_count + 1 < b.success_threshold) :
    (b.call now true).1.state = .halfOpen ∧
      (b.call now true).1.success_count = b.success_count + 1 ∧
      (b.call now true).1.success_threshold = b.success_threshold := by
  have hne : ¬ (b.success_threshold ≤ b.success_count + 1) := by omega
  simp [call, onSuccess, h, hne]

theorem call_halfOpen_success_close (b : CircuitBreaker) (now : Nat)
    (h : b.state = .halfOpen) (hge : b.success_threshold ≤ b.success_count + 1) :
    (b.call now true).1.state = .closed := by
  simp [call, onSuccess, transitionTo, h, hge]

theorem call_closed_success_state (b : CircuitBreaker) (now : Nat)
    (h : b.state = .closed) : (b.call now true).1.state = .closed := by
  simp [call, onSuccess, h]

theorem call_halfOpen_failure_opens (b : CircuitBreaker) (now : Nat)
    (h : b.state = .halfOpen) : (b.call now false).1.state = .opened := by
  simp [call, onFailure, transitionTo, h]

theorem callSuccN_add (b : CircuitBreaker) (now j m : Nat) :
    callSuccN b now (j + m) = callSuccN (callSuccN b now j) now m := by
  induction j generalizing b with
  | zero => simp [callSuccN]
  | succ j ih =>
      have : j + 1 + m = (j + m) + 1 := by omega
      rw [this]
      simp only [callSuccN]
      exact ih (b.call now true).1

theorem callSuccN_halfOpen_lt (now : Nat) :
    ∀ (k : Nat) (b : CircuitBreaker), b.state = .halfOpen →
      b.success_count + k < b.success_threshold →
      (callSuccN b now k).state = .halfOpen ∧
        (callSuccN b now k).success_count = b.success_count + k ∧
        (callSuccN b now k).success_threshold = b.success_threshold := by
  intro k
  induction k with
  | zero => intro b hb _; simp [callSuccN, hb]
  | succ k ih =>
      intro b hb hlt
      have hstep := call_halfOpen_success_stay b now hb (by omega)
      simp only [callSuccN]
      have := ih (b.call now true).1 hstep.1 (by omega)
      refine ⟨this.1, ?_, ?_⟩
      · rw [this.2.1, hstep.2.1]; omega
      · rw [this.2.2, hstep.2.2]

theorem callSuccN_closed (b : CircuitBreaker) (now : Nat) (k : Nat)
    (h : b.state = .closed) : (callSuccN b now k).state = .closed := by
  induction k generalizing b with
  | zero => simpa [callSuccN] using h
  | succ k ih =>
      simp only [callSuccN]
      exact ih _ (call_closed_success_state b now h)

theorem call_rejected (b : CircuitBreaker) (now : Nat) (s : Bool)
    (hst : b.state = .opened) (hres : b.shouldAttemptReset now = false) :
    b.call now s = ({ b with total_calls := b.total_calls + 1 }, .rejected) := by
  simp only [call]
  split
  · rfl
  · rename_i hcond
    exact absurd (show b.state = CircuitState.opened ∧
      ¬ b.shouldAttemptReset now from ⟨hst, by simp [hres]⟩) hcond

theorem call_not_rejected (b : CircuitBreaker) (now : Nat) (s : Bool)
    (h : ¬ (b.state = .opened ∧ ¬ b.shouldAttemptReset now)) :
    (b.call now s).2 = .completed s := by
  simp only [call]
  split
  · rename_i hcond
    exact absurd (show b.state = CircuitState.opened ∧
      ¬ b.shouldAttemptReset now from hcond) h
  · cases s <;> rfl

end CircuitBreaker

/-! ## Claim C5 -/

/-- C5: While a circuit breaker is OPEN and `now − last_failure_time` is
still below `recovery_timeout`, `CircuitBreaker.call` raises
`CircuitBreakerOpenError` without invoking the wrapped function (the result
is `rejected` and the only state change is the `total_calls` bump); and
whenever a call on an OPEN breaker does execute the wrapped function, the
recovery timeout had elapsed (`_should_attempt_reset`), i.e. the call ran as
a HALF_OPEN probe. -/
theorem open_breaker_blocks_calls :
    (∀ (b : CircuitBreaker) (now t : Nat) (s : Bool),
        b.state = .opened → b.last_failure_time = some t →
        now < t + b.recovery_timeout →
        b.call now s = ({ b with total_calls := b.total_calls + 1 },
          CircuitBreaker.CallResult.rejected)) ∧
    (∀ (b : CircuitBreaker) (now : Nat) (s : Bool),
        b.state = .opened → (b.call now s).2 ≠ .rejected →
        b.shouldAttemptReset now = true) := by
  constructor
  · intro b now t s hst hlt hrec
    apply CircuitBreaker.call_rejected b now s hst
    simp [CircuitBreaker.shouldAttemptReset, hlt]
    omega
  · intro b now s hst h
    cases hres : b.shouldAttemptReset now with
    | true => rfl
    | false =>
        exact absurd (by rw [CircuitBreaker.call_rejected b now s hst hres]) h

/-- Witness for C5: a breaker that opened at time 100 with a 60-second
recovery timeout rejects a call at time 110. -/
theorem open_breaker_blocks_calls_witness :
    ({ CircuitBreaker.create 5 60 2 0 with
        state := CircuitState.opened,
        last_failure_time := some 100 } : CircuitBreaker).call 110 true
      = ({ ({ CircuitBreaker.create 5 60 2 0 with
              state := CircuitState.opened,
              last_failure_time := some 100 } : CircuitBreaker) with
            total_calls :=
              ({ CircuitBreaker.create 5 60 2 0 with
                  state := CircuitState.opened,
                  last_failure_time := some 100 } : CircuitBreaker).total_calls + 1 },
          CircuitBreaker.CallResult.rejected) :=
  open_breaker_blocks_calls.1 _ 110 100 true rfl rfl (by decide)

/-! ## Claim C6 -/

/-- C6: In HALF_OPEN, any single failure of the wrapped call sends the
breaker to OPEN, and from HALF_OPEN with a cleared success counter the
breaker reaches CLOSED exactly when at least `success_threshold` consecutive
successful calls have been made. -/
theorem half_open_failure_and_success_threshold :
    (∀ (b : CircuitBreaker) (now : Nat),
        b.state = .halfOpen → (b.call now false).1.state = .opened) ∧
    (∀ (b : CircuitBreaker) (now k : Nat),
        b.state = .halfOpen → b.success_count = 0 → 1 ≤ b.success_threshold →
        ((CircuitBreaker.callSuccN b now k).state = .closed ↔
          b.success_threshold ≤ k)) := by
  refine ⟨fun b now h => CircuitBreaker.call_halfOpen_failure_opens b now h, ?_⟩
  intro b now k hb hsc hthr
  constructor
  · intro hclosed
    by_contra hk
    push_neg at hk
    have hlt := CircuitBreaker.callSuccN_halfOpen_lt now k b hb (by omega)
    rw [hlt.1] at hclosed
    exact absurd hclosed (by decide)
  · intro hk
    obtain ⟨m, rfl⟩ : ∃ m, k = b.success_threshold + m :=
      ⟨k - b.success_threshold, by omega⟩
    rw [CircuitBreaker.callSuccN_add]
    apply CircuitBreaker.callSuccN_closed
    cases hth : b.success_threshold with
    | zero => omega
    | succ t =>
        rw [CircuitBreaker.callSuccN_add b now t 1]
        have hmid := CircuitBreaker.callSuccN_halfOpen_lt now t b hb (by omega)
        simp only [CircuitBreaker.callSuccN]
        apply CircuitBreaker.call_halfOpen_success_close _ now hmid.1
        rw [hmid.2.1, hmid.2.2]
        omega

/-- Witness for C6: from HALF_OPEN with `success_threshold = 2`, two
consecutive successes close the breaker. -/
theorem half_open_success_threshold_witness :
    (CircuitBreaker.callSuccN
        { CircuitBreaker.create 5 60 2 0 with state := CircuitState.halfOpen }
        0 2).state = CircuitState.closed :=
  (half_open_failure_and_success_threshold.2 _ 0 2 rfl rfl (by decide)).2
    (by decide)

/-! ## Retry and pipeline lemmas -/

theorem retryAux_le (behavior : Nat → AttemptOutcome) :
    ∀ (n i : Nat), (retryAux behavior i n).2 ≤ n := by
  intro n
  induction n with
  | zero => intro i; simp [retryAux]
  | succ n ih =>
      intro i
      simp only [retryAux]
      cases behavior i <;> simp only
      · omega
      · have := ih (i + 1); omega
      · omega

theorem retryRun_le (max_attempts : Nat) (behavior : Nat → AttemptOutcome) :
    (retryRun max_attempts behavior).2 ≤ max_attempts :=
  retryAux_le behavior max_attempts 0

theorem retryAux_pos (behavior : Nat → AttemptOutcome) (n i : Nat)
    (h : 1 ≤ n) : 1 ≤ (retryAux behavior i n).2 := by
  cases n with
  | zero => omega
  | succ n =>
      simp only [retryAux]
      cases behavior i <;> simp

theorem retryRun_pos (max_attempts : Nat) (behavior : Nat → AttemptOutcome)
    (h : 1 ≤ max_attempts) : 1 ≤ (retryRun max_attempts behavior).2 :=
  retryAux_pos behavior max_attempts 0 h

theorem step5Fallback_proceed_spec (env : GuardianEnv) (q : Nat)
    (ev : List AuditEvent) (p f i : Nat)
    (h : step5Fallback env q = .proceed ev p f i) :
    ev = [.error] ∧ p = q ∧ f ≤ env.maxAttempts ∧ i = 1 := by
  have hf := retryRun_le env.maxAttempts env.fallback1Beh
  unfold step5Fallback at h
  split at h
  · split at h <;> simp only [Step5Out.proceed.injEq, reduceCtorEq] at h
    obtain ⟨h1, h2, h3, h4⟩ := h
    exact ⟨h1.symm, h2.symm, h3 ▸ hf, h4.symm⟩
  · simp only [reduceCtorEq] at h

theorem step5Fallback_abort_spec (env : GuardianEnv) (q : Nat)
    (ev : List AuditEvent) (p f i : Nat)
    (h : step5Fallback env q = .abort ev p f i) :
    (ev = [.error] ∨ ev = [.error, .error]) ∧ p = q ∧ f ≤ env.maxAttempts ∧
      i ≤ 1 := by
  have hf := retryRun_le env.maxAttempts env.fallback1Beh
  unfold step5Fallback at h
  split at h
  · split at h <;> simp only [Step5Out.abort.injEq, reduceCtorEq] at h
    obtain ⟨h1, h2, h3, h4⟩ := h
    exact ⟨Or.inr h1.symm, h2.symm, h3 ▸ hf, by omega⟩
  · simp only [Step5Out.abort.injEq] at h
    obtain ⟨h1, h2, h3, h4⟩ := h
    exact ⟨Or.inl h1.symm, h2.symm, by omega, by omega⟩

theorem step5Run_proceed_spec (env : GuardianEnv) (ev : List AuditEvent)
    (p f i : Nat) (bf : CircuitBreaker)
    (h : step5Run env = (.proceed ev p f i, bf)) :
    (ev = [] ∨ ev = [.error]) ∧ p ≤ env.maxAttempts ∧ f ≤ env.maxAttempts ∧
      i ≤ 1 := by
  have hp := retryRun_le env.maxAttempts env.primaryBeh
  unfold step5Run at h
  split at h <;> rw [Prod.mk.injEq] at h <;> obtain ⟨h1, _⟩ := h
  · simp only [Step5Out.proceed.injEq] at h1
    obtain ⟨ha, hb, hc, hd⟩ := h1
    exact ⟨Or.inl ha.symm, hb ▸ hp, by omega, by omega⟩
  · have := step5Fallback_proceed_spec env _ ev p f i h1
    exact ⟨Or.inr this.1, this.2.1 ▸ hp, this.2.2.1, by omega⟩
  · have := step5Fallback_proceed_spec env 0 ev p f i h1
    exact ⟨Or.inr this.1, by omega, this.2.2.1, by omega⟩

theorem step5Run_abort_spec (env : GuardianEnv) (ev : List AuditEvent)
    (p f i : Nat) (bf : CircuitBreaker)
    (h : step5Run env = (.abort ev p f i, bf)) :
    (ev = [.error] ∨ ev = [.error, .error]) ∧ p ≤ env.maxAttempts ∧
      f ≤ env.maxAttempts ∧ i ≤ 1 := by
  have hp := retryRun_le env.maxAttempts env.primaryBeh
  unfold step5Run at h
  split at h <;> rw [Prod.mk.injEq] at h <;> obtain ⟨h1, _⟩ := h
  · simp only [reduceCtorEq] at h1
  · have := step5Fallback_abort_spec env _ ev p f i h1
    exact ⟨this.1, this.2.1 ▸ hp, this.2.2.1, this.2.2.2⟩
  · have := step5Fallback_abort_spec env 0 ev p f i h1
    exact ⟨this.1, by omega, this.2.2.1, this.2.2.2⟩

theorem countEvents_append (e : AuditEvent) (l₁ l₂ : List AuditEvent) :
    countEvents e (l₁ ++ l₂) = countEvents e l₁ + countEvents e l₂ := by
  induction l₁ with
  | nil => simp [countEvents]
  | cons x xs ih => simp [countEvents, ih]; omega

theorem afterStep5_events (env : GuardianEnv) (ev : List AuditEvent)
    (p f i : Nat) (bf : CircuitBreaker)
    (hreq : countEvents .request ev = 0) (hresp : countEvents .response ev = 0) :
    countEvents .request (afterStep5 env ev p f i bf).events = 1 ∧
      ((afterStep5 env ev p f i bf).raised = true →
        1 ≤ countEvents .error (afterStep5 env ev p f i bf).events ∧
          countEvents .response (afterStep5 env ev p f i bf).events = 0) ∧
      ((afterStep5 env ev p f i bf).raised = false →
        countEvents .response (afterStep5 env ev p f i bf).events = 1) := by
  by_cases hfb2 : (retryRun env.maxAttempts env.fallback2Beh).1 = RetryResult.ok
  all_goals (unfold afterStep5; repeat' split)
  all_goals
    refine ⟨?_, ?_, ?_⟩ <;>
      (simp [countEvents_append, countEvents, hreq, hresp, hfb2]; try omega)

theorem afterStep5_bounds (env : GuardianEnv) (ev : List AuditEvent)
    (p f i : Nat) (bf : CircuitBreaker) :
    (afterStep5 env ev p f i bf).primaryCalls = p ∧
      (afterStep5 env ev p f i bf).fallbackCalls ≤ f + env.maxAttempts ∧
      (afterStep5 env ev p f i bf).fallbackInvocations ≤ i + 1 := by
  have hf2 := retryRun_le env.maxAttempts env.fallback2Beh
  by_cases hfb2 : (retryRun env.maxAttempts env.fallback2Beh).1 = RetryResult.ok
  all_goals (unfold afterStep5; repeat' split)
  all_goals refine ⟨?_, ?_, ?_⟩ <;> (simp [hfb2]; try omega)

theorem afterStep5_recordCost (env : GuardianEnv) (ev : List AuditEvent)
    (p f i : Nat) (bf : CircuitBreaker)
 :
    (afterStep5 env ev p f i bf).qualityCompleted = true ∨
      (afterStep5 env ev p f i bf).recordCostCalls = 0 := by
  by_cases hfb2 : (retryRun env.maxAttempts env.fallback2Beh).1 = RetryResult.ok
  all_goals (unfold afterStep5; repeat' split)
  all_goals simp [hfb2]

theorem afterStep5_fallbackCalls_ge (env : GuardianEnv) (ev : List AuditEvent)
    (p f i : Nat) (bf : CircuitBreaker) :
    f ≤ (afterStep5 env ev p f i bf).fallbackCalls := by
  by_cases hfb2 : (retryRun env.maxAttempts env.fallback2Beh).1 = RetryResult.ok
  all_goals (unfold afterStep5; repeat' split)
  all_goals (simp [hfb2]; try omega)

theorem afterStep5_breakerFinal (env : GuardianEnv) (ev : List AuditEvent)
    (p f i : Nat) (bf : CircuitBreaker) :
    (afterStep5 env ev p f i bf).breakerFinal = bf := by
  by_cases hfb2 : (retryRun env.maxAttempts env.fallback2Beh).1 = RetryResult.ok
  all_goals (unfold afterStep5; repeat' split)
  all_goals simp [hfb2]

/-! ## Claim C1 -/

/-- C1 (amended): every `execute_request` invocation logs exactly one
`request` event; an invocation that raises logs at least one `error` event
and no `response` event — but a provider-stage error is logged where it
occurs (line 152) and again at the boundary handler (line 213), so an error
raised out of `execute_request` can be audited more than once; a normal
return logs exactly one `response` event (possibly together with `error`
events from a recovered provider failure or a non-critical output-validation
failure). -/
theorem audit_events_per_invocation :
    ∀ env : GuardianEnv,
      countEvents .request (executeRequest env).events = 1 ∧
        ((executeRequest env).raised = true →
          1 ≤ countEvents .error (executeRequest env).events ∧
            countEvents .response (executeRequest env).events = 0) ∧
        ((executeRequest env).raised = false →
          countEvents .response (executeRequest env).events = 1) := by
  intro env
  unfold executeRequest
  split
  · refine ⟨?_, ?_, ?_⟩ <;> simp [countEvents]
  · split
    · refine ⟨?_, ?_, ?_⟩ <;> simp [countEvents]
    · rcases h5 : step5Run env with ⟨out, bf⟩
      cases out with
      | abort ev p f i =>
          have hs := step5Run_abort_spec env ev p f i bf h5
          dsimp only
          rcases hs.1 with hev | hev <;> subst hev <;>
            refine ⟨?_, ?_, ?_⟩ <;> simp [countEvents_append, countEvents]
      | proceed ev p f i =>
          have hs := step5Run_proceed_spec env ev p f i bf h5
          dsimp only
          have hev : countEvents .request ev = 0 ∧ countEvents .response ev = 0 := by
            rcases hs.1 with hev | hev <;> subst hev <;> simp [countEvents]
          exact afterStep5_events env ev p f i bf hev.1 hev.2

/-- Witness for C1 (amended): the baseline run returns normally with one
request event and one response event. -/
theorem audit_events_per_invocation_witness :
    countEvents .request (executeRequest envBase).events = 1 ∧
      countEvents .response (executeRequest envBase).events = 1 :=
  ⟨(audit_events_per_invocation envBase).1,
    (audit_events_per_invocation envBase).2.2 (by decide)⟩

/-- Counterexample to C1 as stated: when the provider raises a non-retryable
error and no fallback is configured, the error is audited at step 5 and again
at the boundary — the audit log holds one `request` event but two `error`
events, not "exactly one of {response, error}". -/
theorem audit_events_double_error_cex :
    countEvents .request (executeRequest envPrimaryFatal).events = 1 ∧
      countEvents .error (executeRequest envPrimaryFatal).events = 2 ∧
      countEvents .response (executeRequest envPrimaryFatal).events = 0 := by
  decide

/-! ## Claim C2 -/

/-- C2 (amended): per `execute_request` invocation the primary provider is
called at most `max_attempts` times and the grand total of provider calls is
at most `3 × max_attempts`, because `_handle_failure_with_fallback` can run
up to twice — once after a step-5 provider failure and once after a
critical output-validation verdict — each invocation making at most
`max_attempts` calls; there is no recursion inside a single fallback
invocation. -/
theorem provider_call_bounds :
    ∀ env : GuardianEnv,
      (executeRequest env).primaryCalls ≤ env.maxAttempts ∧
        (executeRequest env).primaryCalls + (executeRequest env).fallbackCalls
          ≤ 3 * env.maxAttempts ∧
        (executeRequest env).fallbackInvocations ≤ 2 := by
  intro env
  unfold executeRequest
  split
  · simp
  · split
    · simp
    · rcases h5 : step5Run env with ⟨out, bf⟩
      cases out with
      | abort ev p f i =>
          have hs := step5Run_abort_spec env ev p f i bf h5
          dsimp only
          omega
      | proceed ev p f i =>
          have hs := step5Run_proceed_spec env ev p f i bf h5
          dsimp only
          have hb := afterStep5_bounds env ev p f i bf
          omega

/-- Counterexample to C2 as stated: with `max_attempts = 1`, a failing
primary provider, a succeeding fallback and a critical output-validation
verdict, one invocation makes 3 provider calls (> 2 × max_attempts) and
attempts fallback twice. -/
theorem provider_calls_exceed_double_bound_cex :
    (executeRequest envDoubleFallback).primaryCalls
        + (executeRequest envDoubleFallback).fallbackCalls = 3 ∧
      2 * envDoubleFallback.maxAttempts = 2 ∧
      (executeRequest envDoubleFallback).fallbackInvocations = 2 := by
  decide

/-! ## Claim C3 -/

/-- C3 (amended): the fallback call runs under no circuit breaker at all.
`LLMGuardian` constructs a single breaker (not keyed by provider) that guards
only the primary call; when that breaker is OPEN and rejects the primary
call, a configured distinct fallback provider is still invoked (at least one
fallback provider call), and the breaker records nothing about the fallback:
its state after the request is exactly the rejected-call state, whatever the
fallback outcome. -/
theorem fallback_runs_without_breaker :
    ∀ env : GuardianEnv,
      env.breaker.state = .opened →
      env.breaker.shouldAttemptReset env.breakerNow = false →
      (env.enableSafety && !env.inputValid) = false →
      env.admissionOk = true →
      env.fallbackConfigured = true →
      env.providerDiffersFromFallback = true →
      1 ≤ env.maxAttempts →
      (executeRequest env).primaryCalls = 0 ∧
        1 ≤ (executeRequest env).fallbackCalls ∧
        (executeRequest env).breakerFinal =
          { env.breaker with total_calls := env.breaker.total_calls + 1 } := by
  intro env hst hres hinput hadm hfb hdiff hmax
  have hcall := CircuitBreaker.call_rejected env.breaker env.breakerNow
    (decide ((retryRun env.maxAttempts env.primaryBeh).1 = RetryResult.ok))
    hst hres
  have h5 : step5Run env =
      (step5Fallback env 0,
        { env.breaker with total_calls := env.breaker.total_calls + 1 }) := by
    unfold step5Run
    rw [hcall]
  have hfbpos := retryRun_pos env.maxAttempts env.fallback1Beh hmax
  unfold executeRequest
  rw [hinput, hadm]
  simp only [Bool.false_eq_true, if_false, Bool.not_true]
  rw [h5]
  generalize ({ env.breaker with total_calls := env.breaker.total_calls + 1 } :
    CircuitBreaker) = brec
  unfold step5Fallback
  rw [hfb, hdiff, if_pos (show ((true && true) = true) from rfl)]
  by_cases hok : (retryRun env.maxAttempts env.fallback1Beh).1 = RetryResult.ok
  · rw [if_pos hok]
    dsimp only
    have hb := afterStep5_bounds env [.error] 0
      (retryRun env.maxAttempts env.fallback1Beh).2 1 brec
    have hge := afterStep5_fallbackCalls_ge env [.error] 0
      (retryRun env.maxAttempts env.fallback1Beh).2 1 brec
    have hbf := afterStep5_breakerFinal env [.error] 0
      (retryRun env.maxAttempts env.fallback1Beh).2 1 brec
    exact ⟨hb.1, by omega, hbf⟩
  · rw [if_neg hok]
    exact ⟨rfl, hfbpos, rfl⟩

/-- Witness for C3 (amended): the open-breaker fallback scenario makes no
primary call, one fallback call, and leaves the breaker in its rejected-call
state. -/
theorem fallback_runs_without_breaker_witness :
    (executeRequest envOpenBreakerFallback).primaryCalls = 0 ∧
      1 ≤ (executeRequest envOpenBreakerFallback).fallbackCalls ∧
      (executeRequest envOpenBreakerFallback).breakerFinal =
        { envOpenBreakerFallback.breaker with
          total_calls := envOpenBreakerFallback.breaker.total_calls + 1 } :=
  fallback_runs_without_breaker envOpenBreakerFallback rfl (by decide) rfl rfl
    rfl rfl (by decide)

/-- Counterexample to C3 as stated: with the guardian's only circuit breaker
OPEN (and rejecting), the fallback provider is still invoked — the fallback
call is not rejected by any OPEN breaker — and the final breaker state is
identical whether the fallback succeeds or fails, so no breaker records the
fallback call's outcome. -/
theorem fallback_not_gated_by_breaker_cex :
    envOpenBreakerFallback.breaker.state = .opened ∧
      (executeRequest envOpenBreakerFallback).fallbackCalls = 1 ∧
      (executeRequest envOpenBreakerFallback).raised = false ∧
      (executeRequest envOpenBreakerFallbackFail).breakerFinal =
        (executeRequest envOpenBreakerFallback).breakerFinal := by
  decide

/-! ## Rate-limiter ledger lemmas -/

theorem qlookup_setA (l : List (String × ℚ)) (u k : String) (v : ℚ) :
    qlookup (setA l u v) k = if k = u then v else qlookup l k := by
  induction l with
  | nil =>
      by_cases h : k = u
      · subst h
        simp [setA, qlookup, List.lookup]
      · have hb : (k == u) = false := beq_eq_false_iff_ne.mpr h
        simp [setA, qlookup, List.lookup, hb, h]
  | cons hd tl ih =>
      obtain ⟨k', v'⟩ := hd
      simp only [qlookup] at ih
      by_cases h1 : k' = u
      · subst h1
        by_cases h2 : k = k'
        · subst h2
          simp [setA, qlookup, List.lookup]
        · have hb : (k == k') = false := beq_eq_false_iff_ne.mpr h2
          simp [setA, qlookup, List.lookup, hb, h2]
      · by_cases h2 : k = k'
        · subst h2
          simp [setA, qlookup, List.lookup, h1]
        · have hb : (k == k') = false := beq_eq_false_iff_ne.mpr h2
          simp [setA, qlookup, List.lookup, h1, hb, h2, ih]

namespace RateLimiterState

theorem resetUserQuotaIfNeeded_ledgers (st : RateLimiterState) (u : String)
    (now : ℚ) :
    (st.resetUserQuotaIfNeeded u now).session_costs = st.session_costs ∧
      ((st.resetUserQuotaIfNeeded u now).user_quotas = st.user_quotas ∨
        (st.resetUserQuotaIfNeeded u now).user_quotas = setA st.user_quotas u 0) := by
  unfold resetUserQuotaIfNeeded
  split
  · exact ⟨rfl, Or.inr rfl⟩
  · split
    · exact ⟨rfl, Or.inr rfl⟩
    · exact ⟨rfl, Or.inl rfl⟩

theorem checkUserQuotaStep_ledgers (cfg : RateLimitConfig)
    (st : RateLimiterState) (userId : Option String) (now : ℚ) :
    (checkUserQuotaStep cfg st userId now).1.session_costs = st.session_costs ∧
      ((checkUserQuotaStep cfg st userId now).1.user_quotas = st.user_quotas ∨
        ∃ u, (checkUserQuotaStep cfg st userId now).1.user_quotas
          = setA st.user_quotas u 0) := by
  unfold checkUserQuotaStep
  split
  · rename_i u quota _
    have hr := resetUserQuotaIfNeeded_ledgers st u now
    split
    · exact ⟨hr.1, hr.2.imp id fun h => ⟨u, h⟩⟩
    · exact ⟨hr.1, hr.2.imp id fun h => ⟨u, h⟩⟩
  · exact ⟨rfl, Or.inl rfl⟩

theorem checkSessionBudgetStep_state (cfg : RateLimitConfig)
    (r : RateLimiterState × Option AdmissionError) (sessionId : Option String) :
    (checkSessionBudgetStep cfg r sessionId).1 = r.1 := by
  rcases r with ⟨st, e⟩
  cases e with
  | some e => rfl
  | none =>
      unfold checkSessionBudgetStep
      rcases sessionId with _ | sid
      · rfl
      · rcases hb : cfg.session_budget_usd with _ | b
        · rfl
        · dsimp only
          split <;> rfl

theorem checkQuotaSteps_ledgers (cfg : RateLimitConfig)
    (st : RateLimiterState) (userId sessionId : Option String) (now : ℚ) :
    (checkQuotaSteps cfg st userId sessionId now).1.session_costs
        = st.session_costs ∧
      ((checkQuotaSteps cfg st userId sessionId now).1.user_quotas
          = st.user_quotas ∨
        ∃ u, (checkQuotaSteps cfg st userId sessionId now).1.user_quotas
          = setA st.user_quotas u 0) := by
  unfold checkQuotaSteps
  rw [checkSessionBudgetStep_state]
  exact checkUserQuotaStep_ledgers cfg st userId now

theorem checkLimits_ledgers (cfg : RateLimitConfig) (st : RateLimiterState)
    (userId sessionId : Option String) (now : ℚ) :
    (checkLimits cfg st userId sessionId now).1.session_costs
        = st.session_costs ∧
      ((checkLimits cfg st userId sessionId now).1.user_quotas
          = st.user_quotas ∨
        ∃ u, (checkLimits cfg st userId sessionId now).1.user_quotas
          = setA st.user_quotas u 0) := by
  unfold checkLimits
  split
  · exact ⟨rfl, Or.inl rfl⟩
  · split
    · rename_i u
      split
      · exact ⟨rfl, Or.inl rfl⟩
      · exact checkQuotaSteps_ledgers cfg
          (afterUser cfg (afterGlobal st now) u now) (some u) sessionId now
    · exact checkQuotaSteps_ledgers cfg (afterGlobal st now) none sessionId now

end RateLimiterState

/-! ## Claim C4 -/

/-- C4 (amended): `record_cost` is invoked only after the quality-assessment
step has completed, so a request that raises earlier never has a USD ledger
incremented; and the admission check `check_limits` never increments any USD
ledger — it leaves the session ledgers untouched and leaves each user's daily
ledger either unchanged or reset to zero (the reset occurring on first sight
of the user or on UTC date rollover, exactly as `record_cost` itself would
apply it). -/
theorem cost_ledgers_only_via_record_cost :
    (∀ env : GuardianEnv,
        (executeRequest env).qualityCompleted = false →
        (executeRequest env).recordCostCalls = 0) ∧
    (∀ (cfg : RateLimitConfig) (st : RateLimiterState)
        (userId sessionId : Option String) (now : ℚ),
        (RateLimiterState.checkLimits cfg st userId sessionId now).1.session_costs
            = st.session_costs ∧
        ∀ k, qlookup
              (RateLimiterState.checkLimits cfg st userId sessionId now).1.user_quotas k
            = qlookup st.user_quotas k ∨
          qlookup
              (RateLimiterState.checkLimits cfg st userId sessionId now).1.user_quotas k
            = 0) := by
  constructor
  · intro env
    unfold executeRequest
    split
    · intro _; rfl
    · split
      · intro _; rfl
      · rcases h5 : step5Run env with ⟨out, bf⟩
        cases out with
        | abort ev p f i => intro _; rfl
        | proceed ev p f i =>
            dsimp only
            intro h
            rcases afterStep5_recordCost env ev p f i bf with hq | hr
            · rw [hq] at h; exact absurd h (by simp)
            · exact hr
  · intro cfg st userId sessionId now
    have hl := RateLimiterState.checkLimits_ledgers cfg st userId sessionId now
    refine ⟨hl.1, ?_⟩
    rcases hl.2 with h | ⟨u, h⟩
    · intro k; exact Or.inl (by rw [h])
    · intro k
      rw [h, qlookup_setA]
      by_cases hk : k = u
      · exact Or.inr (by rw [if_pos hk])
      · exact Or.inl (by rw [if_neg hk])

/-- Witness for C4 (amended): the run whose provider fails fatally aborts
before quality assessment and records no cost. -/
theorem cost_ledgers_only_via_record_cost_witness :
    (executeRequest envPrimaryFatal).recordCostCalls = 0 :=
  cost_ledgers_only_via_record_cost.1 envPrimaryFatal (by decide)

/-- Counterexample to C4 as stated: on UTC date rollover, the admission check
itself rewrites a USD ledger — user `u` enters `check_limits` on day 1 with
$5 accumulated on day 0, admission succeeds, and the daily ledger now reads
$0, so `check_limits` does decrement a USD ledger (the reset), contradicting
"the admission check never increments or decrements any USD ledger". -/
theorem admission_rollover_resets_ledger_cex :
    qlookup stRollover.user_quotas "u" = 5 ∧
      qlookup (RateLimiterState.checkLimits cfgRollover stRollover
          (some "u") none 86400).1.user_quotas "u" = 0 ∧
      (RateLimiterState.checkLimits cfgRollover stRollover
          (some "u") none 86400).2 = none := by
  refine ⟨by norm_num [qlookup, stRollover, List.lookup], ?_, ?_⟩ <;>
    norm_num [RateLimiterState.checkLimits, RateLimiterState.checkQuotaSteps,
      RateLimiterState.checkUserQuotaStep, RateLimiterState.checkSessionBudgetStep,
      RateLimiterState.afterGlobal, RateLimiterState.afterUser,
      RateLimiterState.userBucket, RateLimiterState.resetUserQuotaIfNeeded,
      TokenBucket.acquire, TokenBucket.refill, qlookup, setA, dayOf,
      stRollover, cfgRollover, List.lookup]

/-! ## Claim C8 -/

/-- C8: After `assess_quality` returns normally, the response's
`quality_level` is the categorisation of its `quality_score` by the
thresholds (≥ 0.9 excellent, ≥ 0.75 good, ≥ 0.6 acceptable, ≥ 0.3 poor,
otherwise unsafe), and `is_hallucination = true` implies the computed
hallucination probability exceeds 0.7. -/
theorem assess_quality_annotations_consistent :
    ∀ (hallMatches wordCount : Nat) (sm : SafetyMatches) (offTask : Bool)
      (responseLen : Nat),
      (assessQuality hallMatches wordCount sm offTask responseLen).raised = false →
      (assessQuality hallMatches wordCount sm offTask responseLen).response.quality_level
          = categorizeQuality
              (assessQuality hallMatches wordCount sm offTask responseLen).response.quality_score ∧
        ((assessQuality hallMatches wordCount sm offTask responseLen).response.is_hallucination
            = true →
          (0.7 : ℚ) <
            (assessQuality hallMatches wordCount sm offTask
              responseLen).assessment.hallucination_probability) := by
  intro hallMatches wordCount sm offTask responseLen _
  constructor
  · rfl
  · intro hh
    simpa [assessQuality] using hh

/-- Witness for C8: a clean response (no pattern matches, no safety matches,
on-task, 100 characters) is assessed without error and annotated
consistently. -/
theorem assess_quality_annotations_consistent_witness :
    (assessQuality 0 10 ⟨0, 0, 0, 0, 0⟩ false 100).response.quality_level
        = categorizeQuality
            (assessQuality 0 10 ⟨0, 0, 0, 0, 0⟩ false 100).response.quality_score ∧
      ((assessQuality 0 10 ⟨0, 0, 0, 0, 0⟩ false 100).response.is_hallucination = true →
        (0.7 : ℚ) <
          (assessQuality 0 10 ⟨0, 0, 0, 0, 0⟩ false 100).assessment.hallucination_probability) :=
  assess_quality_annotations_consistent 0 10 ⟨0, 0, 0, 0, 0⟩ false 100
    (by norm_num [assessQuality, hallucinationDetect, patternScore, lengthScore,
      checkSafety, SafetyMatches.categories, categoryScore, calculateQualityScore,
      shouldPassValidation])

/-! ## Claim C10 -/

/-- C10: When `assess_quality` raises `QualityCheckFailedError`, the response
has already been fully annotated on that error path: `quality_score`,
`quality_level`, `is_hallucination`, `contains_harmful_content` and
`is_off_task` hold exactly the values the normal-return path computes (the
component detector/scorer functions applied to the inputs), and the score has
been appended to the quality history; none of these mutations is rolled
back. -/
theorem assess_quality_error_path_fully_annotated :
    ∀ (hallMatches wordCount : Nat) (sm : SafetyMatches) (offTask : Bool)
      (responseLen : Nat),
      (assessQuality hallMatches wordCount sm offTask responseLen).raised = true →
      (assessQuality hallMatches wordCount sm offTask responseLen).response =
          { quality_score :=
              calculateQualityScore (hallucinationDetect hallMatches wordCount)
                (checkSafety sm).2 offTask responseLen
            quality_level :=
              categorizeQuality
                (calculateQualityScore (hallucinationDetect hallMatches wordCount)
                  (checkSafety sm).2 offTask responseLen)
            is_hallucination :=
              decide ((0.7 : ℚ) < hallucinationDetect hallMatches wordCount)
            contains_harmful_content := decide ((checkSafety sm).1 ≠ [])
            is_off_task := offTask } ∧
        (assessQuality hallMatches wordCount sm offTask responseLen).historyAppended
          = true := by
  intro hallMatches wordCount sm offTask responseLen _
  exact ⟨rfl, rfl⟩

/-- Witness for C10: a response with two violence matches, off-task and short
(score 0.24 < 0.3, failing validation) raises, and its annotations are the
fully computed ones. -/
theorem assess_quality_error_path_fully_annotated_witness :
    (assessQuality 0 20 ⟨2, 0, 0, 0, 0⟩ true 30).response =
        { quality_score :=
            calculateQualityScore (hallucinationDetect 0 20)
              (checkSafety ⟨2, 0, 0, 0, 0⟩).2 true 30
          quality_level :=
            categorizeQuality
              (calculateQualityScore (hallucinationDetect 0 20)
                (checkSafety ⟨2, 0, 0, 0, 0⟩).2 true 30)
          is_hallucination := decide ((0.7 : ℚ) < hallucinationDetect 0 20)
          contains_harmful_content := decide ((checkSafety ⟨2, 0, 0, 0, 0⟩).1 ≠ [])
          is_off_task := true } ∧
      (assessQuality 0 20 ⟨2, 0, 0, 0, 0⟩ true 30).historyAppended = true :=
  assess_quality_error_path_fully_annotated 0 20 ⟨2, 0, 0, 0, 0⟩ true 30
    (by norm_num [assessQuality, hallucinationDetect, patternScore, lengthScore,
      checkSafety, SafetyMatches.categories, categoryScore, calculateQualityScore,
      shouldPassValidation])

/-! ## Claim C9 -/

/-- C9: When `CircuitBreaker.call` rejects a call because the breaker is OPEN
and the recovery timeout has not elapsed, the only state change is the
increment of `total_calls`: every other field — `state`, `failure_count`,
`success_count`, `last_failure_time`, `last_state_change`, the totals and the
state history — is unchanged, so rejected calls are not counted as failures
and never extend the OPEN period. -/
theorem rejected_call_only_bumps_total_calls :
    ∀ (b : CircuitBreaker) (now : Nat) (s : Bool),
      (b.call now s).2 = .rejected →
      (b.call now s).1 = { b with total_calls := b.total_calls + 1 } := by
  intro b now s h
  by_cases hst : b.state = .opened
  · cases hres : b.shouldAttemptReset now with
    | false => rw [CircuitBreaker.call_rejected b now s hst hres]
    | true =>
        have hnr := CircuitBreaker.call_not_rejected b now s (by simp [hst, hres])
        rw [hnr] at h
        cases s <;> simp at h
  · have hnr := CircuitBreaker.call_not_rejected b now s (fun hc => hst hc.1)
    rw [hnr] at h
    cases s <;> simp at h

/-! ## Token-bucket lemmas -/

namespace TokenBucket

theorem acquire_spec (b : TokenBucket) (now : ℚ) (n : Nat) :
    (b.acquire now n).1.last_refill = now ∧
      (b.acquire now n).1.refill_rate = b.refill_rate ∧
      (b.acquire now n).1.capacity = b.capacity ∧
      (b.acquire now n).1.tokens + (if (b.acquire now n).2 then (n : ℚ) else 0)
        ≤ b.tokens + (now - b.last_refill) * b.refill_rate := by
  have hmin : min b.capacity (b.tokens + (now - b.last_refill) * b.refill_rate)
      ≤ b.tokens + (now - b.last_refill) * b.refill_rate := min_le_right _ _
  simp only [acquire, refill]
  split <;> refine ⟨rfl, rfl, rfl, ?_⟩ <;> simp <;> try linarith

theorem acquire_nonneg (b : TokenBucket) (now : ℚ) (n : Nat)
    (hcap : 0 ≤ b.capacity) (hrate : 0 ≤ b.refill_rate) (htok : 0 ≤ b.tokens)
    (hnow : b.last_refill ≤ now) : 0 ≤ (b.acquire now n).1.tokens := by
  have hadd : (0 : ℚ) ≤ (now - b.last_refill) * b.refill_rate :=
    mul_nonneg (by linarith) hrate
  simp only [acquire, refill]
  split
  · rename_i h
    simp only
    simp at h
    have hle := le_min h.1 h.2
    linarith
  · simp only
    exact le_min hcap (by linarith)

theorem runAcquires_cons (b : TokenBucket) (now : ℚ) (n : Nat)
    (ops : List (ℚ × Nat)) :
    runAcquires b ((now, n) :: ops) =
      ((runAcquires (b.acquire now n).1 ops).1,
        (if (b.acquire now n).2 then (n : ℚ) else 0)
          + (runAcquires (b.acquire now n).1 ops).2) := rfl

theorem runAcquires_budget (ops : List (ℚ × Nat)) :
    ∀ b : TokenBucket,
      (runAcquires b ops).2 + (runAcquires b ops).1.tokens
        ≤ b.tokens + ((runAcquires b ops).1.last_refill - b.last_refill) * b.refill_rate := by
  induction ops with
  | nil => intro b; simp [runAcquires]
  | cons op ops ih =>
      intro b
      obtain ⟨now, n⟩ := op
      rw [runAcquires_cons]
      have hs := acquire_spec b now n
      have hrest := ih (b.acquire now n).1
      rw [hs.1, hs.2.1] at hrest
      have hkey :
          ((runAcquires (b.acquire now n).1 ops).1.last_refill - b.last_refill)
              * b.refill_rate =
            (now - b.last_refill) * b.refill_rate +
              ((runAcquires (b.acquire now n).1 ops).1.last_refill - now)
                * b.refill_rate := by ring
      simp only
      linarith [hs.2.2.2]

theorem runAcquires_nonneg (ops : List (ℚ × Nat)) :
    ∀ b : TokenBucket, 0 ≤ b.capacity → 0 ≤ b.refill_rate → 0 ≤ b.tokens →
      timesChain b.last_refill ops = true →
      0 ≤ (runAcquires b ops).1.tokens := by
  induction ops with
  | nil => intro b _ _ htok _; simpa [runAcquires] using htok
  | cons op ops ih =>
      intro b hcap hrate htok hchain
      obtain ⟨now, n⟩ := op
      rw [runAcquires_cons]
      simp only [timesChain, Bool.and_eq_true, decide_eq_true_eq] at hchain
      have hs := acquire_spec b now n
      exact ih (b.acquire now n).1 (hs.2.2.1 ▸ hcap) (hs.2.1 ▸ hrate)
        (acquire_nonneg b now n hcap hrate htok hchain.1)
        (by rw [hs.1]; exact hchain.2)

theorem runAcquires_last_refill_le (ops : List (ℚ × Nat)) :
    ∀ (b : TokenBucket) (T : ℚ), b.last_refill ≤ T → timesLE T ops = true →
      (runAcquires b ops).1.last_refill ≤ T := by
  induction ops with
  | nil => intro b T h _; simpa [runAcquires] using h
  | cons op ops ih =>
      intro b T h hle
      obtain ⟨now, n⟩ := op
      rw [runAcquires_cons]
      simp only [timesLE, List.all_cons, Bool.and_eq_true, decide_eq_true_eq] at hle
      exact ih (b.acquire now n).1 T
        (by rw [(acquire_spec b now n).1]; exact hle.1)
        (by simpa [timesLE] using hle.2)

end TokenBucket

/-! ## Claim C7 -/

/-- C7: For a freshly created `TokenBucket` with capacity `c` and refill rate
`r ≥ 0`, any finite sequence of `acquire` calls whose timestamps are
nondecreasing and fall within an interval of length `t` consumes at most
`c + r·t` tokens in total (over the successful calls); moreover an `acquire`
that returns `false` performs only the refill and never the decrement. -/
theorem token_bucket_conservation :
    (∀ (c : Nat) (r t0 t : ℚ) (ops : List (ℚ × Nat)),
        0 ≤ r → 0 ≤ t →
        TokenBucket.timesChain t0 ops = true →
        TokenBucket.timesLE (t0 + t) ops = true →
        (TokenBucket.runAcquires (TokenBucket.create c r t0) ops).2 ≤ c + r * t) ∧
    (∀ (b : TokenBucket) (now : ℚ) (n : Nat),
        (b.acquire now n).2 = false → (b.acquire now n).1 = b.refill now) := by
  constructor
  · intro c r t0 t ops hr ht hchain hle
    have hbudget := TokenBucket.runAcquires_budget ops (TokenBucket.create c r t0)
    have hnn := TokenBucket.runAcquires_nonneg ops (TokenBucket.create c r t0)
      (by simp [TokenBucket.create]) (by simpa [TokenBucket.create] using hr)
      (by simp [TokenBucket.create]) (by simpa [TokenBucket.create] using hchain)
    have hlr := TokenBucket.runAcquires_last_refill_le ops (TokenBucket.create c r t0)
      (t0 + t) (by simp [TokenBucket.create]; linarith) hle
    simp only [TokenBucket.create] at hbudget hnn hlr ⊢
    have hmul :
        ((TokenBucket.runAcquires
            { capacity := (c : ℚ), refill_rate := r, tokens := (c : ℚ),
              last_refill := t0 } ops).1.last_refill - t0) * r ≤ t * r := by
      apply mul_le_mul_of_nonneg_right _ hr
      linarith
    have : r * t = t * r := by ring
    linarith
  · intro b now n h
    simp only [TokenBucket.acquire] at h ⊢
    split at h
    · simp at h
    · rename_i hfail
      simp [hfail]

/-- Witness for C7: a bucket of capacity 2, refill rate 1, created at time 0,
with acquires of 2 tokens at times 0 and 1, consumes 2 ≤ 2 + 1·1; and the
failed second acquire leaves the bucket at its refilled state. -/
theorem token_bucket_conservation_witness :
    (TokenBucket.runAcquires (TokenBucket.create 2 1 0) [(0, 2), (1, 2)]).2
        ≤ (2 : ℚ) + 1 * 1 ∧
      ((TokenBucket.create 2 1 0).acquire 0 3).1
        = (TokenBucket.create 2 1 0).refill 0 :=
  ⟨token_bucket_conservation.1 2 1 0 1 [(0, 2), (1, 2)] (by norm_num) (by norm_num)
      (by norm_num [TokenBucket.timesChain]) (by norm_num [TokenBucket.timesLE]),
    token_bucket_conservation.2 (TokenBucket.create 2 1 0) 0 3
      (by norm_num [TokenBucket.create, TokenBucket.acquire, TokenBucket.refill])⟩

/-- Witness for C9: the rejected call at time 120 changes nothing except
`total_calls`. -/
theorem rejected_call_only_bumps_total_calls_witness :
    (({ CircuitBreaker.create 5 60 2 0 with
        state := CircuitState.opened,
        last_failure_time := some 100 } : CircuitBreaker).call 120 true).1
      = { ({ CircuitBreaker.create 5 60 2 0 with
              state := CircuitState.opened,
              last_failure_time := some 100 } : CircuitBreaker) with
          total_calls :=
            ({ CircuitBreaker.create 5 60 2 0 with
                state := CircuitState.opened,
                last_failure_time := some 100 } : CircuitBreaker).total_calls + 1 } :=
  rejected_call_only_bumps_total_calls _ 120 true (by decide)

end LLMGuardian
